import Mathlib

/-!
Shallow embedding of the keystore2 security-level service
(`src/keystore2/src/security_level.rs` and `src/keystore2/src/utils.rs`).

External collaborators (the KeyMint crypto engine, the permission gate and the
key database load path) are modelled as oracle functions supplied through an
environment record; the durable key store mutations are modelled by an explicit
`DbState` value.  Every call the service makes to the engine or the operation
registry is additionally recorded in an event trace, so that theorems can count
invocations and inspect the arguments of each call.
-/

namespace Keystore2

/-- Key blobs, certificates and other byte strings (`Vec<u8>` / `&[u8]`). -/
abbrev Blob := List Nat

/-- `android.system.keystore2.Domain` (an AIDL int enum). -/
structure Domain where
  d : Int
deriving DecidableEq, Repr

def Domain.APP : Domain := ⟨0⟩
def Domain.GRANT : Domain := ⟨1⟩
def Domain.KEY_ID : Domain := ⟨2⟩
def Domain.BLOB : Domain := ⟨3⟩
def Domain.SELINUX : Domain := ⟨4⟩

/-- `android.hardware.keymint.SecurityLevel`. -/
structure SecurityLevel where
  sl : Int
deriving DecidableEq, Repr

def SecurityLevel.SOFTWARE : SecurityLevel := ⟨0⟩
def SecurityLevel.TRUSTED_ENVIRONMENT : SecurityLevel := ⟨1⟩
def SecurityLevel.STRONGBOX : SecurityLevel := ⟨2⟩

/-- `android.hardware.keymint.Tag` (only the tags the source consults). -/
structure Tag where
  t : Int
deriving DecidableEq, Repr

def Tag.PURPOSE : Tag := ⟨536870913⟩
def Tag.ALGORITHM : Tag := ⟨268435458⟩

/-- `android.hardware.keymint.Algorithm` (a newtype over the wire int). -/
structure Algorithm where
  a : Int
deriving DecidableEq, Repr

def Algorithm.RSA : Algorithm := ⟨1⟩
def Algorithm.EC : Algorithm := ⟨3⟩
def Algorithm.AES : Algorithm := ⟨32⟩
def Algorithm.TRIPLE_DES : Algorithm := ⟨33⟩
def Algorithm.HMAC : Algorithm := ⟨128⟩

/-- `android.hardware.keymint.KeyFormat`. -/
structure KeyFormat where
  kf : Int
deriving DecidableEq, Repr

def KeyFormat.X509 : KeyFormat := ⟨0⟩
def KeyFormat.PKCS8 : KeyFormat := ⟨1⟩
def KeyFormat.RAW : KeyFormat := ⟨3⟩

/-- `android.hardware.keymint.HardwareAuthenticatorType`. -/
structure HardwareAuthenticatorType where
  hat : Int
deriving DecidableEq, Repr

def HardwareAuthenticatorType.NONE : HardwareAuthenticatorType := ⟨0⟩
def HardwareAuthenticatorType.PASSWORD : HardwareAuthenticatorType := ⟨1⟩
def HardwareAuthenticatorType.FINGERPRINT : HardwareAuthenticatorType := ⟨2⟩

/-- `keystore2::error::ErrorCode`, a newtype over the KeyMint wire error int. -/
structure ErrorCode where
  ec : Int
deriving DecidableEq, Repr

def ErrorCode.INVALID_ARGUMENT : ErrorCode := ⟨-38⟩
def ErrorCode.TOO_MANY_OPERATIONS : ErrorCode := ⟨-31⟩
def ErrorCode.KEY_REQUIRES_UPGRADE : ErrorCode := ⟨-62⟩

/-- `keystore2::error::Error` (`Rc` carries a keystore ResponseCode,
`Km` a KeyMint error code, `Binder` a binder exception). -/
inductive Error
  | Rc (code : Int)
  | Km (e : ErrorCode)
  | Binder (exception : Int) (code : Int)
deriving DecidableEq, Repr

/-- `Error::sys()` = `Error::Rc(ResponseCode::SYSTEM_ERROR)`. -/
def Error.sys : Error := Error.Rc 4

/-- `android.hardware.keymint.KeyParameter`; the source consults only the
`tag` and `integer` fields. -/
structure KeyParameter where
  tag : Tag
  integer : Int
deriving DecidableEq, Repr

/-- `android.hardware.keymint.KeyCharacteristics`. -/
structure KeyCharacteristics where
  hardwareEnforced : List KeyParameter
  softwareEnforced : List KeyParameter
deriving DecidableEq, Repr

/-- `android.hardware.keymint.Certificate`. -/
structure KmCertificate where
  encodedCertificate : Blob
deriving DecidableEq, Repr

/-- `android.system.keystore2.KeyDescriptor`.  (`alias` is a Lean keyword,
hence the trailing underscore on the field name.) -/
structure KeyDescriptor where
  domain : Domain
  nspace : Int
  alias_ : Option String
  blob : Option Blob
deriving DecidableEq, Repr

/-- `android.system.keystore2.AuthenticatorSpec`. -/
structure AuthenticatorSpec where
  authenticatorType : HardwareAuthenticatorType
  authenticatorId : Int
deriving DecidableEq, Repr

/-- `keystore2::key_parameter::KeyParameter`: the internal representation,
a wire parameter value annotated with its provenance security level. -/
structure KsInternalKeyParameter where
  value : KeyParameter
  securityLevel : SecurityLevel
deriving DecidableEq, Repr

/-- `android.system.keystore2.Authorization`. -/
structure Authorization where
  securityLevel : SecurityLevel
  keyParameter : KeyParameter
deriving DecidableEq, Repr

/-- `android.system.keystore2.KeyMetadata`. -/
structure KeyMetadata where
  key : KeyDescriptor
  keySecurityLevel : SecurityLevel
  authorizations : List Authorization
  certificate : Option Blob
  certificateChain : Option Blob
  modificationTimeMs : Int
deriving DecidableEq, Repr

/-- `keystore2::database::SubComponentType`. -/
inductive SubComponentType
  | KM_BLOB
  | CERT
  | CERT_CHAIN
deriving DecidableEq, Repr

/-- `keystore2::database::KeyEntry`, restricted to the field the source
reads (`km_blob`). -/
structure KeyEntry where
  km_blob : Option Blob
deriving DecidableEq, Repr

/-- `utils::key_characteristics_to_internal`: hardware-enforced parameters are
tagged with the service's security level, software-enforced ones with
`SecurityLevel::SOFTWARE`. -/
def key_characteristics_to_internal (key_characteristics : KeyCharacteristics)
    (hw_security_level : SecurityLevel) : List KsInternalKeyParameter :=
  key_characteristics.hardwareEnforced.map
      (fun aidl_kp => { value := aidl_kp, securityLevel := hw_security_level })
    ++ key_characteristics.softwareEnforced.map
      (fun aidl_kp => { value := aidl_kp, securityLevel := SecurityLevel.SOFTWARE })

/-- `utils::key_parameters_to_authorizations`. -/
def key_parameters_to_authorizations (parameters : List KsInternalKeyParameter) :
    List Authorization :=
  parameters.map (fun p => { securityLevel := p.securityLevel, keyParameter := p.value })

/-- `ZERO_BLOB_32`: 32 zero bytes, the default masking key. -/
def ZERO_BLOB_32 : Blob := List.replicate 32 0

/-- The durable key store (`keystore2::database`), restricted to the
operations `store_new_key` and the upgrade path perform.  `nextId` is the
key-id the next `create_key_entry` returns; every insert prepends, so the
most recent blob of a given sub-component type is found first. -/
structure DbState where
  nextId : Int
  blobs : List (Int × SubComponentType × Blob)
  keyparams : List (Int × List KsInternalKeyParameter)
  aliases : List (Int × String × Domain × Int)
deriving DecidableEq, Repr

def DbState.create_key_entry (db : DbState) (domain : Domain) (nspace : Int) :
    DbState × Int :=
  ({ db with nextId := db.nextId + 1 }, db.nextId)

def DbState.insert_blob (db : DbState) (key_id : Int) (sc : SubComponentType)
    (blob : Blob) (sl : SecurityLevel) : DbState :=
  { db with blobs := (key_id, sc, blob) :: db.blobs }

def DbState.insert_keyparameter (db : DbState) (key_id : Int)
    (params : List KsInternalKeyParameter) : DbState :=
  { db with keyparams := (key_id, params) :: db.keyparams }

def DbState.rebind_alias (db : DbState) (key_id : Int) (a : String)
    (domain : Domain) (nspace : Int) : DbState :=
  { db with aliases := (key_id, a, domain, nspace) :: db.aliases }

/-- The current blob of a given sub-component type stored under a key-id. -/
def DbState.lookup_blob (db : DbState) (key_id : Int) (sc : SubComponentType) :
    Option Blob :=
  (db.blobs.find? (fun e => e.1 = key_id ∧ e.2.1 = sc)).map (fun e => e.2.2)

/-- Observable calls the service makes to the engine, the store and the
operation registry. -/
inductive Event
  | callF (blob : Blob)
  | upgradeKey (blob : Blob)
  | insertBlob (key_id : Int) (blob : Blob)
  | engineBegin (blob : Blob)
  | prune (uid : Nat)
  | registerOp (uid : Nat) (op : Int)
  | engineImportWrappedKey (wrapped_data wrapping_blob : Blob)
  | engineGenerateKey
  | engineAddRngEntropy
  | engineImportKey (format : KeyFormat)
deriving DecidableEq, Repr

def isCallF : Event → Bool
  | Event.callF _ => true
  | _ => false

def isUpgradeKeyEv : Event → Bool
  | Event.upgradeKey _ => true
  | _ => false

def isInsertBlobEv : Event → Bool
  | Event.insertBlob _ _ => true
  | _ => false

def isPruneEv : Event → Bool
  | Event.prune _ => true
  | _ => false

/-- `KeystoreSecurityLevel::upgrade_keyblob_if_required_with` (lines 501-543).
`σ` is the state threaded through the wrapped operation `f` (for
`create_operation` the engine's response schedule, for `import_wrapped_key`
the key store).  `km_upgradeKey` is the engine's `upgradeKey` entry point and
`db_insert_blob` the store's `insert_blob` used to persist the upgraded blob
under the key-id guard.  The protocol emits a `callF` event at each of its
two possible invocations of `f`, an `upgradeKey` event for the engine upgrade
call and an `insertBlob` event for the store write. -/
def upgrade_keyblob_if_required_with {σ T : Type}
    (km_upgradeKey : Blob → List KeyParameter → σ → σ × Except Error Blob)
    (db_insert_blob : Int → Blob → σ → σ × Except Error Unit)
    (key_id_guard : Option Int) (blob : Blob) (params : List KeyParameter)
    (f : Blob → σ → σ × List Event × Except Error T) (s : σ) :
    σ × List Event × Except Error (T × Option Blob) :=
  match f blob s with
  | (s1, ev1, Except.ok v) => (s1, Event.callF blob :: ev1, Except.ok (v, none))
  | (s1, ev1, Except.error e) =>
    if e = Error.Km ErrorCode.KEY_REQUIRES_UPGRADE then
      match km_upgradeKey blob params s1 with
      | (s2, Except.error e2) =>
        (s2, Event.callF blob :: ev1 ++ [Event.upgradeKey blob], Except.error e2)
      | (s2, Except.ok upgraded_blob) =>
        match (match key_id_guard with
               | none => (s2, ([] : List Event), Except.ok ())
               | some g =>
                 match db_insert_blob g upgraded_blob s2 with
                 | (s3, r) => (s3, [Event.insertBlob g upgraded_blob], r)) with
        | (s3, ev2, Except.error e3) =>
          (s3, Event.callF blob :: ev1 ++ [Event.upgradeKey blob] ++ ev2, Except.error e3)
        | (s3, ev2, Except.ok ()) =>
          match f upgraded_blob s3 with
          | (s4, ev3, Except.ok v) =>
            (s4, Event.callF blob :: ev1 ++ [Event.upgradeKey blob] ++ ev2
                   ++ Event.callF upgraded_blob :: ev3,
             Except.ok (v, some upgraded_blob))
          | (s4, ev3, Except.error e4) =>
            (s4, Event.callF blob :: ev1 ++ [Event.upgradeKey blob] ++ ev2
                   ++ Event.callF upgraded_blob :: ev3,
             Except.error e4)
    else (s1, Event.callF blob :: ev1, Except.error e)

/-- The environment of a `KeystoreSecurityLevel` request: the calling
principal, the permission gate (`utils::check_key_permission` with
`KeyPerm::rebind` resp. `KeyPerm::use_`), the key-database load path and the
KeyMint engine entry points, all external collaborators modelled as oracles.
`security_level` is the service's own `security_level` field. -/
structure Env where
  security_level : SecurityLevel
  calling_uid : Nat
  check_rebind : KeyDescriptor → Except Error Unit
  check_use_blob : KeyDescriptor → Except Error Unit
  load_key_entry : KeyDescriptor → Except Error (Int × KeyEntry)
  km_addRngEntropy : Blob → Except Error Unit
  km_generateKey : List KeyParameter → Except Error (Blob × KeyCharacteristics × List KmCertificate)
  km_importKey : List KeyParameter → KeyFormat → Blob →
    Except Error (Blob × KeyCharacteristics × List KmCertificate)
  km_importWrappedKey : Blob → Blob → Blob → List KeyParameter → Int → Int →
    Except Error (Blob × KeyCharacteristics)
  km_upgradeKey : Blob → List KeyParameter → Except Error Blob

/-- The certificate-chain split at the top of `store_new_key` (lines 93-112):
the first chain entry, when present, becomes the leaf certificate; the
remaining entries, when any, are concatenated into the issuing chain.  The
second length test in the source runs after `chain.remove(0)`, so a one-entry
chain yields no issuing chain. -/
def splitCertChain : Option (List KmCertificate) → Option Blob × Option Blob
  | some chain =>
    (match chain with
     | [] => none
     | c :: _ => some c.encodedCertificate,
     match chain with
     | [] => none
     | _ :: rest =>
       match rest with
       | [] => none
       | _ => some (rest.map KmCertificate.encodedCertificate).flatten)
  | none => (none, none)

/-- `KeystoreSecurityLevel::store_new_key` (lines 86-176): split the engine's
certificate chain into leaf certificate and issuing chain, then either (BLOB
domain) hand the raw blob back in the descriptor, or (any other domain) create
a store entry, insert the blob, the optional certificates and the parameters,
rebind the alias, and answer with a `KEY_ID` descriptor; finally wrap
everything into `KeyMetadata`. -/
def store_new_key (env : Env) (key : KeyDescriptor)
    (key_characteristics : KeyCharacteristics)
    (km_cert_chain : Option (List KmCertificate)) (blob : Blob) (db : DbState) :
    DbState × Except Error KeyMetadata :=
  let cert := (splitCertChain km_cert_chain).1
  let cert_chain := (splitCertChain km_cert_chain).2
  let key_parameters := key_characteristics_to_internal key_characteristics env.security_level
  let finish : DbState → KeyDescriptor → DbState × Except Error KeyMetadata :=
    fun db' k =>
      (db', Except.ok
        { key := k
          keySecurityLevel := env.security_level
          authorizations := key_parameters_to_authorizations key_parameters
          certificate := cert
          certificateChain := cert_chain
          modificationTimeMs := 0 })
  if key.domain = Domain.BLOB then
    finish db { domain := Domain.BLOB, nspace := 0, alias_ := none, blob := some blob }
  else
    match (db.create_key_entry key.domain key.nspace) with
    | (db1, key_id) =>
      let db2 := db1.insert_blob key_id SubComponentType.KM_BLOB blob env.security_level
      let db3 := match cert with
        | some c => db2.insert_blob key_id SubComponentType.CERT c env.security_level
        | none => db2
      let db4 := match cert_chain with
        | some c => db3.insert_blob key_id SubComponentType.CERT_CHAIN c env.security_level
        | none => db3
      let db5 := db4.insert_keyparameter key_id key_parameters
      match key.alias_ with
      | some a =>
        finish (db5.rebind_alias key_id a key.domain key.nspace)
          { domain := Domain.KEY_ID, nspace := key_id, alias_ := none, blob := none }
      | none => (db5, Except.error Error.sys)

/-- `KeystoreSecurityLevel::generate_key` (lines 291-331). -/
def generate_key (env : Env) (key : KeyDescriptor)
    (attestation_key : Option KeyDescriptor) (params : List KeyParameter)
    (flags : Int) (entropy : Blob) (db : DbState) :
    DbState × List Event × Except Error KeyMetadata :=
  if key.domain ≠ Domain.BLOB ∧ key.alias_.isNone then
    (db, [], Except.error (Error.Km ErrorCode.INVALID_ARGUMENT))
  else
    let key := if key.domain = Domain.APP then
        { domain := key.domain, nspace := Int.ofNat env.calling_uid,
          alias_ := key.alias_, blob := none }
      else key
    match env.check_rebind key with
    | Except.error e => (db, [], Except.error e)
    | Except.ok () =>
      match env.km_addRngEntropy entropy with
      | Except.error e => (db, [Event.engineAddRngEntropy], Except.error e)
      | Except.ok () =>
        match env.km_generateKey params with
        | Except.error e =>
          (db, [Event.engineAddRngEntropy, Event.engineGenerateKey], Except.error e)
        | Except.ok (blob, key_characteristics, certificate_chain) =>
          match store_new_key env key key_characteristics (some certificate_chain) blob db with
          | (db', r) => (db', [Event.engineAddRngEntropy, Event.engineGenerateKey], r)

/-- `KeystoreSecurityLevel::import_key` (lines 333-388), in particular the
derivation of the wire format from the first `ALGORITHM` parameter
(lines 363-374). -/
def import_key (env : Env) (key : KeyDescriptor)
    (attestation_key : Option KeyDescriptor) (params : List KeyParameter)
    (flags : Int) (key_data : Blob) (db : DbState) :
    DbState × List Event × Except Error KeyMetadata :=
  if key.domain ≠ Domain.BLOB ∧ key.alias_.isNone then
    (db, [], Except.error (Error.Km ErrorCode.INVALID_ARGUMENT))
  else
    let key := if key.domain = Domain.APP then
        { domain := key.domain, nspace := Int.ofNat env.calling_uid,
          alias_ := key.alias_, blob := none }
      else key
    match env.check_rebind key with
    | Except.error e => (db, [], Except.error e)
    | Except.ok () =>
      let format : Except Error KeyFormat :=
        match params.find? (fun p => p.tag = Tag.ALGORITHM) with
        | none => Except.error (Error.Km ErrorCode.INVALID_ARGUMENT)
        | some p =>
          if Algorithm.mk p.integer = Algorithm.AES
              ∨ Algorithm.mk p.integer = Algorithm.HMAC
              ∨ Algorithm.mk p.integer = Algorithm.TRIPLE_DES then
            Except.ok KeyFormat.RAW
          else if Algorithm.mk p.integer = Algorithm.RSA
              ∨ Algorithm.mk p.integer = Algorithm.EC then
            Except.ok KeyFormat.PKCS8
          else Except.error (Error.Km ErrorCode.INVALID_ARGUMENT)
      match format with
      | Except.error e => (db, [], Except.error e)
      | Except.ok format =>
        match env.km_importKey params format key_data with
        | Except.error e => (db, [Event.engineImportKey format], Except.error e)
        | Except.ok (blob, key_characteristics, certificate_chain) =>
          match store_new_key env key key_characteristics (some certificate_chain) blob db with
          | (db', r) => (db', [Event.engineImportKey format], r)

/-- `KeystoreSecurityLevel::import_wrapped_key` (lines 390-499).  Note: the
source's retry closure binds `wrapping_blob` but the engine call inside it
passes the captured `wrapping_key_blob`; the closure parameter is unused (the
file sets `#![allow(unused_variables)]`).  The embedding reproduces this: `f`
ignores its blob argument. -/
def import_wrapped_key (env : Env) (key wrapping_key : KeyDescriptor)
    (masking_key : Option Blob) (params : List KeyParameter)
    (authenticators : List AuthenticatorSpec) (db : DbState) :
    DbState × List Event × Except Error KeyMetadata :=
  if key.domain ≠ Domain.BLOB ∧ key.alias_.isNone then
    (db, [], Except.error (Error.Km ErrorCode.INVALID_ARGUMENT))
  else if wrapping_key.domain = Domain.BLOB then
    (db, [], Except.error (Error.Km ErrorCode.INVALID_ARGUMENT))
  else
    match key.blob with
    | none => (db, [], Except.error (Error.Km ErrorCode.INVALID_ARGUMENT))
    | some wrapped_data =>
      let key := if key.domain = Domain.APP then
          { domain := key.domain, nspace := Int.ofNat env.calling_uid,
            alias_ := key.alias_, blob := none }
        else key
      match env.check_rebind key with
      | Except.error e => (db, [], Except.error e)
      | Except.ok () =>
        match env.load_key_entry wrapping_key with
        | Except.error e => (db, [], Except.error e)
        | Except.ok (wrapping_key_id_guard, wrapping_key_entry) =>
          match wrapping_key_entry.km_blob with
          | none => (db, [], Except.error Error.sys)
          | some wrapping_key_blob =>
            match (authenticators.find?
                (fun a => a.authenticatorType = HardwareAuthenticatorType.PASSWORD)).map
                AuthenticatorSpec.authenticatorId with
            | none => (db, [], Except.error (Error.Km ErrorCode.INVALID_ARGUMENT))
            | some pw_sid =>
              match (authenticators.find?
                  (fun a => a.authenticatorType = HardwareAuthenticatorType.FINGERPRINT)).map
                  AuthenticatorSpec.authenticatorId with
              | none => (db, [], Except.error (Error.Km ErrorCode.INVALID_ARGUMENT))
              | some fp_sid =>
                let masking_key := masking_key.getD ZERO_BLOB_32
                match upgrade_keyblob_if_required_with
                    (fun b ps d => (d, env.km_upgradeKey b ps))
                    (fun g b d =>
                      (d.insert_blob g SubComponentType.KM_BLOB b env.security_level,
                       Except.ok ()))
                    (some wrapping_key_id_guard) wrapping_key_blob []
                    (fun wrapping_blob d =>
                      (d, [Event.engineImportWrappedKey wrapped_data wrapping_key_blob],
                       env.km_importWrappedKey wrapped_data wrapping_key_blob masking_key
                         params pw_sid fp_sid)) db with
                | (db', ev, Except.error e) => (db', ev, Except.error e)
                | (db', ev, Except.ok ((blob, key_characteristics), _)) =>
                  match store_new_key env key key_characteristics none blob db' with
                  | (db'', r) => (db'', ev, r)

/-- `android.hardware.keymint.BeginResult`; the operation handle is modelled
by an integer id. -/
structure BeginResult where
  challenge : Int
  params : List KeyParameter
  operation : Option Int
deriving DecidableEq, Repr

/-- `android.system.keystore2.CreateOperationResponse`. -/
structure CreateOperationResponse where
  iOperation : Option Int
  operationChallenge : Option Int
  parameters : Option (List KeyParameter)
deriving DecidableEq, Repr

/-- The `match begin_result.params.len() { 0 => None, _ => Some(..) }`
wrapping of the returned parameters. -/
def paramsOpt (ps : List KeyParameter) : Option (List KeyParameter) :=
  match ps with
  | [] => none
  | ps => some ps

/-- The engine's `begin` responses, in call order.  The engine is an external
collaborator; each call to `begin` consumes the next entry. -/
abbrev BeginSchedule := List (Except Error BeginResult)

/-- The closure passed to the upgrade-retry protocol by `create_operation`
(lines 251-264): call engine `begin`; on `TOO_MANY_OPERATIONS` prune the
caller's operations from the registry and loop, otherwise return the result.
An exhausted schedule answers `Error::sys` (the model's stand-in for an
unavailable engine; theorems only use schedules long enough).  The registry
prune is modelled as always succeeding, recorded as a `prune` event. -/
def begin_loop (caller_uid : Nat) (purpose : Int)
    (operation_parameters : List KeyParameter) (blob : Blob) :
    BeginSchedule → BeginSchedule × List Event × Except Error BeginResult
  | [] => ([], [], Except.error Error.sys)
  | r :: rest =>
    match r with
    | Except.error e =>
      if e = Error.Km ErrorCode.TOO_MANY_OPERATIONS then
        match begin_loop caller_uid purpose operation_parameters blob rest with
        | (s', ev, out) =>
          (s', Event.engineBegin blob :: Event.prune caller_uid :: ev, out)
      else (rest, [Event.engineBegin blob], Except.error e)
    | Except.ok v => (rest, [Event.engineBegin blob], Except.ok v)

/-- `KeystoreSecurityLevel::create_operation` (lines 178-289): resolve the key
to a blob (raw blob with a `use` permission check for BLOB domain, store load
otherwise), extract the mandatory `PURPOSE` parameter, run engine `begin`
through the upgrade-retry protocol with the pruning loop inside the wrapped
closure, then register the returned operation under the caller and build the
response.  The store write of an upgraded blob is modelled as succeeding and
is recorded by the protocol's `insertBlob` event. -/
def create_operation (env : Env) (key : KeyDescriptor)
    (operation_parameters : List KeyParameter) (forced : Bool)
    (s : BeginSchedule) :
    BeginSchedule × List Event × Except Error CreateOperationResponse :=
  let resolved : Except Error (Blob × Option Int) :=
    if key.domain = Domain.BLOB then
      match env.check_use_blob key with
      | Except.error e => Except.error e
      | Except.ok () =>
        match key.blob with
        | some b => Except.ok (b, none)
        | none => Except.error Error.sys
    else
      match env.load_key_entry key with
      | Except.error e => Except.error e
      | Except.ok (g, key_entry) =>
        match key_entry.km_blob with
        | some b => Except.ok (b, some g)
        | none => Except.error Error.sys
  match resolved with
  | Except.error e => (s, [], Except.error e)
  | Except.ok (km_blob, key_id_guard) =>
    match operation_parameters.find? (fun p => p.tag = Tag.PURPOSE) with
    | none => (s, [], Except.error (Error.Km ErrorCode.INVALID_ARGUMENT))
    | some kp =>
      let purpose := kp.integer
      match upgrade_keyblob_if_required_with
          (fun b ps sched => (sched, env.km_upgradeKey b ps))
          (fun _ _ sched => (sched, Except.ok ()))
          key_id_guard km_blob operation_parameters
          (fun blob sched => begin_loop env.calling_uid purpose operation_parameters blob sched)
          s with
      | (s', ev, Except.error e) => (s', ev, Except.error e)
      | (s', ev, Except.ok (begin_result, _upgraded)) =>
        match begin_result.operation with
        | some km_op =>
          (s', ev ++ [Event.registerOp env.calling_uid km_op],
           Except.ok
             { iOperation := some km_op
               operationChallenge := none
               parameters := paramsOpt begin_result.params })
        | none => (s', ev, Except.error Error.sys)

/-- Modelled from the spec, section 4.3 / createOperation: the begin-operation
call "wrapped in an outer, unbounded loop: on a 'too many operations' engine
error, prune the calling principal's operations from the registry and retry
begin-operation again (re-entering the upgrade-retry protocol each time); any
other error or success exits the loop".  Here the wrapped operation is a
single engine `begin` call and the loop sits outside
`upgrade_keyblob_if_required_with`; `fuel` bounds the recursion (the spec's
loop is unbounded; theorems use enough fuel). -/
def begin_once (blob : Blob) :
    BeginSchedule → BeginSchedule × List Event × Except Error BeginResult
  | [] => ([], [], Except.error Error.sys)
  | r :: rest => (rest, [Event.engineBegin blob], r)

/-- Modelled from the spec: see `begin_once`. -/
def create_operation_begin_outer_spec (env : Env) (key_id_guard : Option Int)
    (blob : Blob) (operation_parameters : List KeyParameter) :
    Nat → BeginSchedule →
    BeginSchedule × List Event × Except Error (BeginResult × Option Blob)
  | 0, s => (s, [], Except.error Error.sys)
  | fuel + 1, s =>
    match upgrade_keyblob_if_required_with
        (fun b ps sched => (sched, env.km_upgradeKey b ps))
        (fun _ _ sched => (sched, Except.ok ()))
        key_id_guard blob operation_parameters
        (fun b sched => begin_once b sched) s with
    | (s', ev, Except.error e) =>
      if e = Error.Km ErrorCode.TOO_MANY_OPERATIONS then
        match create_operation_begin_outer_spec env key_id_guard blob
            operation_parameters fuel s' with
        | (s'', ev2, r) => (s'', ev ++ Event.prune env.calling_uid :: ev2, r)
      else (s', ev, Except.error e)
    | (s', ev, Except.ok v) => (s', ev, Except.ok v)

/-- Empty key characteristics, used by the concrete scenarios. -/
def kc0 : KeyCharacteristics := { hardwareEnforced := [], softwareEnforced := [] }

/-- An initially empty key store whose next key-id is 1. -/
def db0 : DbState := { nextId := 1, blobs := [], keyparams := [], aliases := [] }

/-- A benign concrete environment: all permission checks pass, the wrapping
key loads under guard 42 with current blob `[0]`, `upgradeKey` migrates any
blob to `[1]`, and the engine's `importWrappedKey` succeeds exactly when
handed the upgraded wrapping blob `[1]` and otherwise demands an upgrade. -/
def envBase : Env :=
  { security_level := SecurityLevel.TRUSTED_ENVIRONMENT
    calling_uid := 1000
    check_rebind := fun _ => Except.ok ()
    check_use_blob := fun _ => Except.ok ()
    load_key_entry := fun _ => Except.ok (42, { km_blob := some [0] })
    km_addRngEntropy := fun _ => Except.ok ()
    km_generateKey := fun _ => Except.ok ([3], kc0, [])
    km_importKey := fun _ _ _ => Except.ok ([3], kc0, [])
    km_importWrappedKey := fun _ wrapping_blob _ _ _ _ =>
      if wrapping_blob = [1] then Except.ok ([9], kc0)
      else Except.error (Error.Km ErrorCode.KEY_REQUIRES_UPGRADE)
    km_upgradeKey := fun _ _ => Except.ok [1] }

/-- A new APP-domain key carrying wrapped key data in its blob field. -/
def keyApp : KeyDescriptor :=
  { domain := Domain.APP, nspace := 0, alias_ := some "k", blob := some [7] }

/-- The wrapping key's descriptor. -/
def wrapKey : KeyDescriptor :=
  { domain := Domain.APP, nspace := 0, alias_ := some "w", blob := none }

/-- Authenticator list holding both mandatory SIDs. -/
def auths0 : List AuthenticatorSpec :=
  [{ authenticatorType := HardwareAuthenticatorType.PASSWORD, authenticatorId := 11 },
   { authenticatorType := HardwareAuthenticatorType.FINGERPRINT, authenticatorId := 22 }]

/-- A BLOB-domain key descriptor carrying its blob `[0]` directly. -/
def keyB : KeyDescriptor :=
  { domain := Domain.BLOB, nspace := 0, alias_ := none, blob := some [0] }

/-- Operation parameters holding a `PURPOSE` tag. -/
def ops0 : List KeyParameter := [{ tag := Tag.PURPOSE, integer := 0 }]

/-- A successful `begin` result carrying operation handle 5. -/
def res0 : BeginResult := { challenge := 0, params := [], operation := some 5 }

/-- Engine `begin` schedule: upgrade-required, then too-many-operations, then
success. -/
def sched0 : BeginSchedule :=
  [Except.error (Error.Km ErrorCode.KEY_REQUIRES_UPGRADE),
   Except.error (Error.Km ErrorCode.TOO_MANY_OPERATIONS),
   Except.ok res0]

/-- The events of `n` rounds of the pruning loop: engine `begin` on `blob`
answering too-many-operations, followed by a prune of `uid`'s operations. -/
def tmoEvs (blob : Blob) (uid : Nat) : Nat → List Event
  | 0 => []
  | n + 1 => Event.engineBegin blob :: Event.prune uid :: tmoEvs blob uid n

theorem tmoEvs_countP_prune (blob : Blob) (uid : Nat) (n : Nat) :
    (tmoEvs blob uid n).countP isPruneEv = n := by
  induction n with
  | zero => rfl
  | succ n ih => simp [tmoEvs, List.countP_cons, isPruneEv, ih]

theorem tmoEvs_countP_upgrade (blob : Blob) (uid : Nat) (n : Nat) :
    (tmoEvs blob uid n).countP isUpgradeKeyEv = 0 := by
  induction n with
  | zero => rfl
  | succ n ih => simp [tmoEvs, List.countP_cons, isUpgradeKeyEv, ih]

theorem tmoEvs_prune_mem (blob : Blob) (uid : Nat) (n : Nat) (u : Nat)
    (h : Event.prune u ∈ tmoEvs blob uid n) : u = uid := by
  induction n with
  | zero => simp [tmoEvs] at h
  | succ n ih =>
    simp only [tmoEvs, List.mem_cons] at h
    rcases h with h | h | h
    · exact absurd h (by simp)
    · exact (Event.prune.injEq u uid).mp h
    · exact ih h

theorem begin_loop_replicate_tmo (caller_uid : Nat) (purpose : Int)
    (ops : List KeyParameter) (blob : Blob) (n : Nat) (rest : BeginSchedule) :
    begin_loop caller_uid purpose ops blob
        (List.replicate n (Except.error (Error.Km ErrorCode.TOO_MANY_OPERATIONS)) ++ rest)
      = ((begin_loop caller_uid purpose ops blob rest).1,
         tmoEvs blob caller_uid n ++ (begin_loop caller_uid purpose ops blob rest).2.1,
         (begin_loop caller_uid purpose ops blob rest).2.2) := by
  induction n with
  | zero => simp [tmoEvs]
  | succ n ih => simp [List.replicate_succ, begin_loop, ih, tmoEvs]

theorem begin_loop_err_ne_tmo (caller_uid : Nat) (purpose : Int)
    (ops : List KeyParameter) (blob : Blob) (e : Error) (rest : BeginSchedule)
    (h : e ≠ Error.Km ErrorCode.TOO_MANY_OPERATIONS) :
    begin_loop caller_uid purpose ops blob (Except.error e :: rest)
      = (rest, [Event.engineBegin blob], Except.error e) := by
  simp [begin_loop, h]

theorem begin_loop_ok_head (caller_uid : Nat) (purpose : Int)
    (ops : List KeyParameter) (blob : Blob) (res : BeginResult)
    (rest : BeginSchedule) :
    begin_loop caller_uid purpose ops blob (Except.ok res :: rest)
      = (rest, [Event.engineBegin blob], Except.ok res) := rfl

/-- Claim C2: if the first invocation of the wrapped operation on the current
blob succeeds, `upgrade_keyblob_if_required_with` makes no engine `upgradeKey`
call and no store `insert_blob` call, invokes the wrapped operation exactly
once, and returns the success value paired with `none` for the upgraded blob:
the protocol's output is exactly the first invocation's output, preceded by
the single `callF` record and with no `upgradeKey` or `insertBlob` event. -/
theorem upgrade_keyblob_first_attempt_success {σ T : Type}
    (km_upgradeKey : Blob → List KeyParameter → σ → σ × Except Error Blob)
    (db_insert_blob : Int → Blob → σ → σ × Except Error Unit)
    (key_id_guard : Option Int) (blob : Blob) (params : List KeyParameter)
    (f : Blob → σ → σ × List Event × Except Error T) (s s1 : σ)
    (ev : List Event) (v : T)
    (h : f blob s = (s1, ev, Except.ok v)) :
    upgrade_keyblob_if_required_with km_upgradeKey db_insert_blob key_id_guard
        blob params f s = (s1, Event.callF blob :: ev, Except.ok (v, none))
    ∧ (Event.callF blob :: ev).countP isUpgradeKeyEv = ev.countP isUpgradeKeyEv
    ∧ (Event.callF blob :: ev).countP isInsertBlobEv = ev.countP isInsertBlobEv
    ∧ (Event.callF blob :: ev).countP isCallF = ev.countP isCallF + 1 := by
  refine ⟨?_, ?_, ?_, ?_⟩
  · simp [upgrade_keyblob_if_required_with, h]
  · simp [List.countP_cons, isUpgradeKeyEv]
  · simp [List.countP_cons, isInsertBlobEv]
  · simp [List.countP_cons, isCallF]

theorem upgrade_keyblob_first_attempt_success_witness :
    upgrade_keyblob_if_required_with (σ := Unit) (T := Nat)
        (fun _ _ s => (s, Except.ok [])) (fun _ _ s => (s, Except.ok ()))
        none [0] [] (fun _ s => (s, [], Except.ok 7)) ()
      = ((), [Event.callF [0]], Except.ok (7, none)) :=
  (upgrade_keyblob_first_attempt_success _ _ none [0] [] _ () () [] 7 rfl).1

/-- Claim C3: if the first invocation of the wrapped operation fails with any
error other than key-requires-upgrade, `upgrade_keyblob_if_required_with`
returns that error unchanged, invokes the wrapped operation exactly once, and
makes no `upgradeKey` call and no store mutation: the output is exactly the
first invocation's output with its error, preceded by the single `callF`
record and with no `upgradeKey` or `insertBlob` event. -/
theorem upgrade_keyblob_other_error_passthrough {σ T : Type}
    (km_upgradeKey : Blob → List KeyParameter → σ → σ × Except Error Blob)
    (db_insert_blob : Int → Blob → σ → σ × Except Error Unit)
    (key_id_guard : Option Int) (blob : Blob) (params : List KeyParameter)
    (f : Blob → σ → σ × List Event × Except Error T) (s s1 : σ)
    (ev : List Event) (e : Error)
    (h : f blob s = (s1, ev, Except.error e))
    (hne : e ≠ Error.Km ErrorCode.KEY_REQUIRES_UPGRADE) :
    upgrade_keyblob_if_required_with km_upgradeKey db_insert_blob key_id_guard
        blob params f s = (s1, Event.callF blob :: ev, Except.error e)
    ∧ (Event.callF blob :: ev).countP isUpgradeKeyEv = ev.countP isUpgradeKeyEv
    ∧ (Event.callF blob :: ev).countP isInsertBlobEv = ev.countP isInsertBlobEv
    ∧ (Event.callF blob :: ev).countP isCallF = ev.countP isCallF + 1 := by
  refine ⟨?_, ?_, ?_, ?_⟩
  · simp [upgrade_keyblob_if_required_with, h, hne]
  · simp [List.countP_cons, isUpgradeKeyEv]
  · simp [List.countP_cons, isInsertBlobEv]
  · simp [List.countP_cons, isCallF]

theorem upgrade_keyblob_other_error_passthrough_witness :
    upgrade_keyblob_if_required_with (σ := Unit) (T := Nat)
        (fun _ _ s => (s, Except.ok [])) (fun _ _ s => (s, Except.ok ()))
        none [0] [] (fun _ s => (s, [], Except.error (Error.Km ErrorCode.INVALID_ARGUMENT))) ()
      = ((), [Event.callF [0]], Except.error (Error.Km ErrorCode.INVALID_ARGUMENT)) :=
  (upgrade_keyblob_other_error_passthrough _ _ none [0] [] _ () () []
    (Error.Km ErrorCode.INVALID_ARGUMENT) rfl (by decide)).1

/-- Claim C5: if the engine's begin-operation answers too-many-operations
exactly `n` times in a row and then succeeds with a valid operation handle,
`create_operation` makes exactly `n` prune calls, all for the calling
principal, and then registers the returned engine operation under that same
calling principal. -/
theorem create_operation_prunes_then_registers
    (env : Env) (key : KeyDescriptor) (ops : List KeyParameter) (forced : Bool)
    (g : Int) (kblob : Blob) (kp : KeyParameter) (n : Nat) (res : BeginResult)
    (opH : Int)
    (hdom : key.domain ≠ Domain.BLOB)
    (hload : env.load_key_entry key = Except.ok (g, { km_blob := some kblob }))
    (hfind : ops.find? (fun p => p.tag = Tag.PURPOSE) = some kp)
    (hop : res.operation = some opH) :
    create_operation env key ops forced
        (List.replicate n (Except.error (Error.Km ErrorCode.TOO_MANY_OPERATIONS))
          ++ [Except.ok res])
      = ([], Event.callF kblob :: (tmoEvs kblob env.calling_uid n
             ++ [Event.engineBegin kblob, Event.registerOp env.calling_uid opH]),
         Except.ok { iOperation := some opH, operationChallenge := none,
                     parameters := paramsOpt res.params })
    ∧ (Event.callF kblob :: (tmoEvs kblob env.calling_uid n
         ++ [Event.engineBegin kblob, Event.registerOp env.calling_uid opH])).countP
        isPruneEv = n
    ∧ ∀ u, Event.prune u ∈ Event.callF kblob :: (tmoEvs kblob env.calling_uid n
         ++ [Event.engineBegin kblob, Event.registerOp env.calling_uid opH]) →
        u = env.calling_uid := by
  refine ⟨?_, ?_, ?_⟩
  · have hbl := begin_loop_replicate_tmo env.calling_uid kp.integer ops kblob n
      [Except.ok res]
    simp only [begin_loop] at hbl
    simp [create_operation, hdom, hload, hfind, upgrade_keyblob_if_required_with,
      hbl, hop]
  · simp [List.countP_cons, List.countP_append, isPruneEv, tmoEvs_countP_prune]
  · intro u hu
    simp only [List.mem_cons, List.mem_append] at hu
    rcases hu with h | h | h | h
    · exact absurd h (by simp)
    · exact tmoEvs_prune_mem _ _ _ _ h
    · exact absurd h (by simp)
    · exact absurd h (by simp)

theorem create_operation_prunes_then_registers_witness :
    create_operation envBase keyApp ops0 false
        (List.replicate 3 (Except.error (Error.Km ErrorCode.TOO_MANY_OPERATIONS))
          ++ [Except.ok res0])
      = ([], Event.callF [0] :: (tmoEvs [0] 1000 3
             ++ [Event.engineBegin [0], Event.registerOp 1000 5]),
         Except.ok { iOperation := some 5, operationChallenge := none,
                     parameters := paramsOpt [] }) :=
  (create_operation_prunes_then_registers envBase keyApp ops0 false 42 [0]
    { tag := Tag.PURPOSE, integer := 0 } 3 res0 5 (by decide) rfl rfl rfl).1

/-- Claim C4, amended: in `create_operation` the too-many-operations retry
loop is an inner loop nested inside the operation wrapped by the
upgrade-retry protocol: on each too-many-operations engine error the calling
principal's operations are pruned and engine begin is retried with the same
blob within the same protocol attempt, without re-entering the protocol (so
at most one `upgradeKey` call happens per `create_operation`); any other
error or success exits the loop.  Shown on the general schedule with `n`
too-many-operations answers, one upgrade-required answer, `m` further
too-many-operations answers and a final success: one upgrade call, `n + m`
prunes and no protocol re-entry occur. -/
theorem create_operation_inner_prune_loop
    (env : Env) (key : KeyDescriptor) (ops : List KeyParameter) (forced : Bool)
    (kblob ub : Blob) (kp : KeyParameter) (n m : Nat) (res : BeginResult)
    (opH : Int)
    (hdom : key.domain = Domain.BLOB)
    (hblob : key.blob = some kblob)
    (hperm : env.check_use_blob key = Except.ok ())
    (hfind : ops.find? (fun p => p.tag = Tag.PURPOSE) = some kp)
    (hupg : env.km_upgradeKey kblob ops = Except.ok ub)
    (hop : res.operation = some opH) :
    create_operation env key ops forced
        (List.replicate n (Except.error (Error.Km ErrorCode.TOO_MANY_OPERATIONS))
          ++ Except.error (Error.Km ErrorCode.KEY_REQUIRES_UPGRADE)
          :: (List.replicate m (Except.error (Error.Km ErrorCode.TOO_MANY_OPERATIONS))
              ++ [Except.ok res]))
      = ([], Event.callF kblob :: (tmoEvs kblob env.calling_uid n
             ++ Event.engineBegin kblob :: Event.upgradeKey kblob
             :: Event.callF ub :: (tmoEvs ub env.calling_uid m
             ++ [Event.engineBegin ub, Event.registerOp env.calling_uid opH])),
         Except.ok { iOperation := some opH, operationChallenge := none,
                     parameters := paramsOpt res.params })
    ∧ (Event.callF kblob :: (tmoEvs kblob env.calling_uid n
         ++ Event.engineBegin kblob :: Event.upgradeKey kblob
         :: Event.callF ub :: (tmoEvs ub env.calling_uid m
         ++ [Event.engineBegin ub, Event.registerOp env.calling_uid opH]))).countP
        isUpgradeKeyEv = 1
    ∧ (Event.callF kblob :: (tmoEvs kblob env.calling_uid n
         ++ Event.engineBegin kblob :: Event.upgradeKey kblob
         :: Event.callF ub :: (tmoEvs ub env.calling_uid m
         ++ [Event.engineBegin ub, Event.registerOp env.calling_uid opH]))).countP
        isPruneEv = n + m := by
  refine ⟨?_, ?_, ?_⟩
  · have hbl1 : begin_loop env.calling_uid kp.integer ops kblob
        (List.replicate n (Except.error (Error.Km ErrorCode.TOO_MANY_OPERATIONS))
          ++ Except.error (Error.Km ErrorCode.KEY_REQUIRES_UPGRADE)
          :: (List.replicate m (Except.error (Error.Km ErrorCode.TOO_MANY_OPERATIONS))
              ++ [Except.ok res]))
        = (List.replicate m (Except.error (Error.Km ErrorCode.TOO_MANY_OPERATIONS))
             ++ [Except.ok res],
           tmoEvs kblob env.calling_uid n ++ [Event.engineBegin kblob],
           Except.error (Error.Km ErrorCode.KEY_REQUIRES_UPGRADE)) := by
      rw [begin_loop_replicate_tmo,
        begin_loop_err_ne_tmo _ _ _ _ _ _ (by decide)]
    have hbl2 : begin_loop env.calling_uid kp.integer ops ub
        (List.replicate m (Except.error (Error.Km ErrorCode.TOO_MANY_OPERATIONS))
          ++ [Except.ok res])
        = ([], tmoEvs ub env.calling_uid m ++ [Event.engineBegin ub],
           Except.ok res) := by
      rw [begin_loop_replicate_tmo, begin_loop_ok_head]
    simp [create_operation, hdom, hblob, hperm, hfind,
      upgrade_keyblob_if_required_with, hbl1, hbl2, hupg, hop]
  · simp [List.countP_cons, List.countP_append, isUpgradeKeyEv,
      tmoEvs_countP_upgrade]
  · simp [List.countP_cons, List.countP_append, isPruneEv, tmoEvs_countP_prune]

theorem create_operation_inner_prune_loop_witness :
    create_operation envBase keyB ops0 false
        (List.replicate 1 (Except.error (Error.Km ErrorCode.TOO_MANY_OPERATIONS))
          ++ Except.error (Error.Km ErrorCode.KEY_REQUIRES_UPGRADE)
          :: (List.replicate 1 (Except.error (Error.Km ErrorCode.TOO_MANY_OPERATIONS))
              ++ [Except.ok res0]))
      = ([], Event.callF [0] :: (tmoEvs [0] 1000 1
             ++ Event.engineBegin [0] :: Event.upgradeKey [0]
             :: Event.callF [1] :: (tmoEvs [1] 1000 1
             ++ [Event.engineBegin [1], Event.registerOp 1000 5])),
         Except.ok { iOperation := some 5, operationChallenge := none,
                     parameters := paramsOpt [] }) :=
  (create_operation_inner_prune_loop envBase keyB ops0 false [0] [1]
    { tag := Tag.PURPOSE, integer := 0 } 1 1 res0 5 rfl rfl rfl rfl rfl rfl).1

/-- Claim C4, counterexample: on the engine schedule upgrade-required, then
too-many-operations, then success, the code (inner loop) prunes once and then
retries engine begin with the *upgraded* blob inside the same upgrade-retry
protocol attempt, whereas the claimed outer loop re-enters the protocol from
the top after the prune and calls engine begin with the original blob again.
The two event traces differ. -/
theorem create_operation_outer_loop_counterexample :
    (create_operation envBase keyB ops0 false sched0).2.1
      = [Event.callF [0], Event.engineBegin [0], Event.upgradeKey [0],
         Event.callF [1], Event.engineBegin [1], Event.prune 1000,
         Event.engineBegin [1], Event.registerOp 1000 5]
    ∧ (create_operation_begin_outer_spec envBase none [0] ops0 2 sched0).2.1
      = [Event.callF [0], Event.engineBegin [0], Event.upgradeKey [0],
         Event.callF [1], Event.engineBegin [1], Event.prune 1000,
         Event.callF [0], Event.engineBegin [0]]
    ∧ (create_operation envBase keyB ops0 false sched0).2.1
        ≠ (create_operation_begin_outer_spec envBase none [0] ops0 2 sched0).2.1
          ++ [Event.registerOp 1000 5] := by
  refine ⟨by decide, by decide, by decide⟩

/-- Claim C6: for every key descriptor whose domain is not BLOB and whose
alias is absent, each of `generate_key`, `import_key` and
`import_wrapped_key` fails with `INVALID_ARGUMENT`, leaves the store
untouched and makes no call to the crypto engine (the event trace is empty). -/
theorem creation_requires_alias
    (env : Env) (key : KeyDescriptor) (ak : Option KeyDescriptor)
    (params : List KeyParameter) (flags : Int) (entropy key_data : Blob)
    (wrapping_key : KeyDescriptor) (masking : Option Blob)
    (auths : List AuthenticatorSpec) (db : DbState)
    (hdom : key.domain ≠ Domain.BLOB) (halias : key.alias_ = none) :
    generate_key env key ak params flags entropy db
      = (db, [], Except.error (Error.Km ErrorCode.INVALID_ARGUMENT))
    ∧ import_key env key ak params flags key_data db
      = (db, [], Except.error (Error.Km ErrorCode.INVALID_ARGUMENT))
    ∧ import_wrapped_key env key wrapping_key masking params auths db
      = (db, [], Except.error (Error.Km ErrorCode.INVALID_ARGUMENT)) := by
  refine ⟨?_, ?_, ?_⟩
  · simp [generate_key, hdom, halias]
  · simp [import_key, hdom, halias]
  · simp [import_wrapped_key, hdom, halias]

theorem creation_requires_alias_witness :
    generate_key envBase { domain := Domain.APP, nspace := 0, alias_ := none, blob := none }
        none [] 0 [] db0
      = (db0, [], Except.error (Error.Km ErrorCode.INVALID_ARGUMENT))
    ∧ import_key envBase { domain := Domain.APP, nspace := 0, alias_ := none, blob := none }
        none [] 0 [] db0
      = (db0, [], Except.error (Error.Km ErrorCode.INVALID_ARGUMENT))
    ∧ import_wrapped_key envBase
        { domain := Domain.APP, nspace := 0, alias_ := none, blob := none }
        wrapKey none [] auths0 db0
      = (db0, [], Except.error (Error.Km ErrorCode.INVALID_ARGUMENT)) :=
  creation_requires_alias envBase
    { domain := Domain.APP, nspace := 0, alias_ := none, blob := none }
    none [] 0 [] [] wrapKey none auths0 db0 (by decide) rfl

/-- Claim C7: if the authenticator list carries no password-type entry or no
fingerprint-type entry, `import_wrapped_key` fails with `INVALID_ARGUMENT`
and never calls the engine (empty event trace, store untouched), whatever
the other parameters are — stated under a benign environment (permission
checks pass and the wrapping key loads with a blob), since the checks before
the authenticator lookups can otherwise fail first with their own errors. -/
theorem import_wrapped_key_requires_both_authenticators
    (env : Env) (key wrapping_key : KeyDescriptor) (masking : Option Blob)
    (params : List KeyParameter) (auths : List AuthenticatorSpec) (db : DbState)
    (g : Int) (wb : Blob)
    (hrebind : ∀ k, env.check_rebind k = Except.ok ())
    (hload : env.load_key_entry wrapping_key = Except.ok (g, { km_blob := some wb }))
    (hauth : (∀ a ∈ auths, a.authenticatorType ≠ HardwareAuthenticatorType.PASSWORD)
           ∨ (∀ a ∈ auths, a.authenticatorType ≠ HardwareAuthenticatorType.FINGERPRINT)) :
    import_wrapped_key env key wrapping_key masking params auths db
      = (db, [], Except.error (Error.Km ErrorCode.INVALID_ARGUMENT)) := by
  by_cases h1 : key.domain ≠ Domain.BLOB ∧ key.alias_.isNone
  · simp [import_wrapped_key, h1]
  · by_cases h2 : wrapping_key.domain = Domain.BLOB
    · simp [import_wrapped_key, h1, h2]
    · cases hb : key.blob with
      | none => simp [import_wrapped_key, h1, h2, hb]
      | some wd =>
        rcases hauth with hpw | hfp
        · have hfind : auths.find?
              (fun a => a.authenticatorType = HardwareAuthenticatorType.PASSWORD) = none :=
            List.find?_eq_none.mpr (fun a ha => by simpa using hpw a ha)
          simp [import_wrapped_key, h1, h2, hb, hrebind, hload, hfind]
        · have hfind : auths.find?
              (fun a => a.authenticatorType = HardwareAuthenticatorType.FINGERPRINT) = none :=
            List.find?_eq_none.mpr (fun a ha => by simpa using hfp a ha)
          cases hpw : auths.find?
              (fun a => a.authenticatorType = HardwareAuthenticatorType.PASSWORD) with
          | none => simp [import_wrapped_key, h1, h2, hb, hrebind, hload, hpw]
          | some a => simp [import_wrapped_key, h1, h2, hb, hrebind, hload, hpw, hfind]

theorem import_wrapped_key_requires_both_authenticators_witness :
    import_wrapped_key envBase keyApp wrapKey none []
        [{ authenticatorType := HardwareAuthenticatorType.PASSWORD, authenticatorId := 11 }]
        db0
      = (db0, [], Except.error (Error.Km ErrorCode.INVALID_ARGUMENT)) :=
  import_wrapped_key_requires_both_authenticators envBase keyApp wrapKey none []
    [{ authenticatorType := HardwareAuthenticatorType.PASSWORD, authenticatorId := 11 }]
    db0 42 [0] (fun _ => rfl) rfl (Or.inr (by decide))

/-- Claim C8: `import_key` derives the engine wire format from the first
`ALGORITHM` parameter: AES, HMAC and TRIPLE_DES import with `KeyFormat::RAW`,
RSA and EC with `KeyFormat::PKCS8`, and any other algorithm value — or an
absent `ALGORITHM` parameter — yields `INVALID_ARGUMENT` with no engine call
(empty event trace).  Stated past the alias and permission checks. -/
theorem import_key_format_from_algorithm
    (env : Env) (key : KeyDescriptor) (ak : Option KeyDescriptor)
    (params : List KeyParameter) (flags : Int) (key_data : Blob) (db : DbState)
    (halias : ¬(key.domain ≠ Domain.BLOB ∧ key.alias_.isNone))
    (hrebind : ∀ k, env.check_rebind k = Except.ok ()) :
    (params.find? (fun p => p.tag = Tag.ALGORITHM) = none →
       import_key env key ak params flags key_data db
         = (db, [], Except.error (Error.Km ErrorCode.INVALID_ARGUMENT)))
    ∧ (∀ p, params.find? (fun p => p.tag = Tag.ALGORITHM) = some p →
        ((Algorithm.mk p.integer = Algorithm.AES ∨ Algorithm.mk p.integer = Algorithm.HMAC
            ∨ Algorithm.mk p.integer = Algorithm.TRIPLE_DES) →
          Event.engineImportKey KeyFormat.RAW
            ∈ (import_key env key ak params flags key_data db).2.1)
        ∧ ((Algorithm.mk p.integer = Algorithm.RSA ∨ Algorithm.mk p.integer = Algorithm.EC) →
          Event.engineImportKey KeyFormat.PKCS8
            ∈ (import_key env key ak params flags key_data db).2.1)
        ∧ (¬(Algorithm.mk p.integer = Algorithm.AES ∨ Algorithm.mk p.integer = Algorithm.HMAC
              ∨ Algorithm.mk p.integer = Algorithm.TRIPLE_DES) →
           ¬(Algorithm.mk p.integer = Algorithm.RSA ∨ Algorithm.mk p.integer = Algorithm.EC) →
           import_key env key ak params flags key_data db
             = (db, [], Except.error (Error.Km ErrorCode.INVALID_ARGUMENT)))) := by
  have halias' : ¬(¬key.domain = Domain.BLOB ∧ key.alias_ = none) := by
    simpa [Option.isNone_iff_eq_none] using halias
  constructor
  · intro hfind
    simp [import_key, halias, hrebind, hfind]
  · intro p hfind
    refine ⟨?_, ?_, ?_⟩
    · intro hraw
      rcases hkm : env.km_importKey params KeyFormat.RAW key_data with e | v
      · simp [import_key, halias', hrebind, hfind, hraw, hkm]
      · rcases v with ⟨blob, kc, chain⟩
        rcases hsn : store_new_key env
            (if key.domain = Domain.APP then
              { domain := key.domain, nspace := Int.ofNat env.calling_uid,
                alias_ := key.alias_, blob := none }
             else key) kc (some chain) blob db with ⟨db', r⟩
        simp [import_key, halias', hrebind, hfind, hraw, hkm, hsn]
    · intro hpkcs
      have hnraw : ¬(Algorithm.mk p.integer = Algorithm.AES
          ∨ Algorithm.mk p.integer = Algorithm.HMAC
          ∨ Algorithm.mk p.integer = Algorithm.TRIPLE_DES) := by
        rcases hpkcs with h | h <;> rw [h] <;> decide
      rcases hkm : env.km_importKey params KeyFormat.PKCS8 key_data with e | v
      · simp [import_key, halias', hrebind, hfind, hpkcs, hnraw, hkm]
      · rcases v with ⟨blob, kc, chain⟩
        rcases hsn : store_new_key env
            (if key.domain = Domain.APP then
              { domain := key.domain, nspace := Int.ofNat env.calling_uid,
                alias_ := key.alias_, blob := none }
             else key) kc (some chain) blob db with ⟨db', r⟩
        simp [import_key, halias', hrebind, hfind, hpkcs, hnraw, hkm, hsn]
    · intro hnraw hnpkcs
      simp [import_key, halias, hrebind, hfind, hnraw, hnpkcs]

theorem import_key_format_from_algorithm_witness :
    Event.engineImportKey KeyFormat.RAW
      ∈ (import_key envBase keyApp none
          [{ tag := Tag.ALGORITHM, integer := 32 }] 0 [] db0).2.1 :=
  ((import_key_format_from_algorithm envBase keyApp none
      [{ tag := Tag.ALGORITHM, integer := 32 }] 0 [] db0 (by simp [keyApp])
      (fun _ => rfl)).2
    { tag := Tag.ALGORITHM, integer := 32 } rfl).1 (Or.inl rfl)

/-- Claim C1 (violated by the code): with a wrapping key whose current blob
`[0]` requires an upgrade and an engine that migrates it to `[1]` and would
accept the unwrap against `[1]`, `import_wrapped_key` upgrades and persists
the wrapping-key blob, but the retried engine unwrap call again receives the
original stale blob `[0]` (the second `engineImportWrappedKey` event), so the
whole call fails with `KEY_REQUIRES_UPGRADE` instead of succeeding with the
upgraded blob. -/
theorem import_wrapped_key_retries_with_stale_wrapping_blob :
    import_wrapped_key envBase keyApp wrapKey none [] auths0 db0
      = ({ nextId := 1, blobs := [(42, SubComponentType.KM_BLOB, [1])],
           keyparams := [], aliases := [] },
         [Event.callF [0], Event.engineImportWrappedKey [7] [0],
          Event.upgradeKey [0], Event.insertBlob 42 [1],
          Event.callF [1], Event.engineImportWrappedKey [7] [0]],
         Except.error (Error.Km ErrorCode.KEY_REQUIRES_UPGRADE))
    ∧ ([0] : Blob) ≠ [1] := by
  exact ⟨rfl, by decide⟩

/-- Claim C9, amended: for every successful key creation through
`store_new_key` whose descriptor domain is not BLOB, the returned metadata's
descriptor is the `KEY_ID`-domain descriptor of the newly created entry
(`nspace` is the new key-id), and the key blob stored under that key-id
equals the blob returned by the engine. -/
theorem store_new_key_key_id_descriptor
    (env : Env) (key : KeyDescriptor) (kc : KeyCharacteristics)
    (chain : Option (List KmCertificate)) (blob : Blob) (db db' : DbState)
    (m : KeyMetadata)
    (hdom : key.domain ≠ Domain.BLOB)
    (h : store_new_key env key kc chain blob db = (db', Except.ok m)) :
    m.key = { domain := Domain.KEY_ID, nspace := db.nextId, alias_ := none,
              blob := none }
    ∧ db'.lookup_blob db.nextId SubComponentType.KM_BLOB = some blob := by
  rcases hsc : splitCertChain chain with ⟨oc, occ⟩
  cases halias : key.alias_ with
  | none =>
    rw [store_new_key] at h
    simp [hdom, halias, hsc] at h
  | some a =>
    rw [store_new_key] at h
    cases oc <;> cases occ <;>
      simp [hdom, halias, hsc, DbState.create_key_entry, DbState.insert_blob,
        DbState.insert_keyparameter, DbState.rebind_alias] at h <;>
      obtain ⟨hdb, hm⟩ := h <;>
      subst hdb <;> subst hm <;>
      simp [DbState.lookup_blob, List.find?]

/-- The key store and metadata produced by the concrete C9 witness call. -/
def dbC9 : DbState :=
  { nextId := 2, blobs := [(1, SubComponentType.KM_BLOB, [3])],
    keyparams := [(1, [])], aliases := [(1, "k", Domain.APP, 0)] }

def mC9 : KeyMetadata :=
  { key := { domain := Domain.KEY_ID, nspace := 1, alias_ := none, blob := none },
    keySecurityLevel := SecurityLevel.TRUSTED_ENVIRONMENT,
    authorizations := [], certificate := none, certificateChain := none,
    modificationTimeMs := 0 }

theorem store_new_key_key_id_descriptor_witness :
    mC9.key = { domain := Domain.KEY_ID, nspace := db0.nextId, alias_ := none,
                blob := none }
    ∧ dbC9.lookup_blob db0.nextId SubComponentType.KM_BLOB = some [3] :=
  store_new_key_key_id_descriptor envBase keyApp kc0 (some []) [3] db0 dbC9 mC9
    (by decide) rfl

/-- Claim C9, counterexample: a successful BLOB-domain `generate_key` is a
successful key creation whose returned metadata descriptor has domain BLOB,
not `KEY_ID` (the raw engine blob is handed back in the descriptor and no
store entry is created), so the claim does not hold of every successful
creation. -/
theorem store_new_key_blob_domain_counterexample :
    generate_key envBase keyB none [] 0 [] db0
      = (db0, [Event.engineAddRngEntropy, Event.engineGenerateKey],
         Except.ok
           { key := { domain := Domain.BLOB, nspace := 0, alias_ := none,
                      blob := some [3] },
             keySecurityLevel := SecurityLevel.TRUSTED_ENVIRONMENT,
             authorizations := [], certificate := none, certificateChain := none,
             modificationTimeMs := 0 })
    ∧ Domain.BLOB ≠ Domain.KEY_ID := by
  exact ⟨rfl, by decide⟩

/-- On success, `store_new_key` copies the two halves of the certificate
split into the metadata unchanged. -/
theorem store_new_key_certs (env : Env) (key : KeyDescriptor)
    (kc : KeyCharacteristics) (chain : Option (List KmCertificate))
    (blob : Blob) (db db' : DbState) (m : KeyMetadata)
    (h : store_new_key env key kc chain blob db = (db', Except.ok m)) :
    m.certificate = (splitCertChain chain).1
    ∧ m.certificateChain = (splitCertChain chain).2 := by
  rcases hsc : splitCertChain chain with ⟨oc, occ⟩
  by_cases hdom : key.domain = Domain.BLOB
  · rw [store_new_key] at h
    simp [hdom, hsc] at h
    obtain ⟨-, hm⟩ := h
    subst hm
    simp [hsc]
  · cases halias : key.alias_ with
    | none =>
      rw [store_new_key] at h
      simp [hdom, halias, hsc] at h
    | some a =>
      rw [store_new_key] at h
      cases oc <;> cases occ <;>
        simp [hdom, halias, hsc, DbState.create_key_entry, DbState.insert_blob,
          DbState.insert_keyparameter, DbState.rebind_alias] at h <;>
        obtain ⟨-, hm⟩ := h <;>
        subst hm <;>
        simp [hsc]

/-- Claim C10: in `store_new_key`, an absent or empty engine certificate
chain yields no certificate and no certificate chain in the metadata; a
one-entry chain yields that entry's bytes as the certificate and no chain;
a longer chain yields the first entry as the certificate and the
concatenation of the remaining entries' bytes, in order, as the chain. -/
theorem store_new_key_cert_chain_split (env : Env) (key : KeyDescriptor)
    (kc : KeyCharacteristics) (chain : Option (List KmCertificate))
    (blob : Blob) (db db' : DbState) (m : KeyMetadata)
    (h : store_new_key env key kc chain blob db = (db', Except.ok m)) :
    ((chain = none ∨ chain = some []) →
       m.certificate = none ∧ m.certificateChain = none)
    ∧ (∀ c, chain = some [c] →
       m.certificate = some c.encodedCertificate ∧ m.certificateChain = none)
    ∧ (∀ c r, chain = some (c :: r) → r ≠ [] →
       m.certificate = some c.encodedCertificate
       ∧ m.certificateChain = some (r.map KmCertificate.encodedCertificate).flatten) := by
  obtain ⟨hc, hcc⟩ := store_new_key_certs env key kc chain blob db db' m h
  refine ⟨?_, ?_, ?_⟩
  · rintro (rfl | rfl) <;> simp [splitCertChain] at hc hcc <;> exact ⟨hc, hcc⟩
  · rintro c rfl
    simp [splitCertChain] at hc hcc
    exact ⟨hc, hcc⟩
  · rintro c r rfl hr
    cases r with
    | nil => exact absurd rfl hr
    | cons x xs =>
      simp [splitCertChain] at hc hcc
      exact ⟨hc, hcc⟩

/-- The metadata produced by the concrete C10 witness call. -/
def mC10 : KeyMetadata :=
  { key := { domain := Domain.BLOB, nspace := 0, alias_ := none, blob := some [3] },
    keySecurityLevel := SecurityLevel.TRUSTED_ENVIRONMENT,
    authorizations := [], certificate := some [10],
    certificateChain := some [11, 12], modificationTimeMs := 0 }

theorem store_new_key_cert_chain_split_witness :
    mC10.certificate = some (KmCertificate.mk [10]).encodedCertificate
    ∧ mC10.certificateChain
      = some (([KmCertificate.mk [11], KmCertificate.mk [12]].map
          KmCertificate.encodedCertificate).flatten) :=
  (store_new_key_cert_chain_split envBase keyB kc0
      (some [⟨[10]⟩, ⟨[11]⟩, ⟨[12]⟩]) [3] db0 db0 mC10 rfl).2.2
    ⟨[10]⟩ [⟨[11]⟩, ⟨[12]⟩] rfl (by decide)

end Keystore2
